import Mathlib

/-!
Shallow embedding of `cosmic-settings/src/pages/desktop/workspaces.rs`
(the Workspace Settings page) and proofs about its update function.

The page owns a cached `WorkspaceConfig` (from the compositor namespace
`com.system76.CosmicComp`), two persisted booleans from the settings-app
namespace `com.system76.CosmicWorkspaces`, an ephemeral trackpad-gesture
flag, a derived list of placement-option labels, a segmented-button
selection model for the layout toggle, and a selection index.

Persistence is modelled by a `SetOracle`: the behaviour of the external
config store's `set` call.  `Page.update` returns the new page state
together with the list of write calls it issued and the list of error-log
events it emitted, so that frame conditions ("zero writes", "exactly one
write") and error handling ("log and ignore") are provable statements.
-/

namespace Workspaces

/-- `WorkspaceMode` from the external `cosmic-comp-config` crate. -/
inductive WorkspaceMode
  | Global
  | OutputBound
deriving DecidableEq, Repr

/-- `WorkspaceLayout` from the external `cosmic-comp-config` crate. -/
inductive WorkspaceLayout
  | Vertical
  | Horizontal
deriving DecidableEq, Repr

/-- `WorkspaceThumbnailPlacement` from the external `cosmic-comp-config`
crate, in declaration order. -/
inductive WorkspaceThumbnailPlacement
  | Top
  | Bottom
  | Left
  | Right
deriving DecidableEq, Repr

/-- The Rust `as usize` discriminant of the placement enum (declaration
order of the external crate). -/
def WorkspaceThumbnailPlacement.toNat : WorkspaceThumbnailPlacement → Nat
  | .Top => 0
  | .Bottom => 1
  | .Left => 2
  | .Right => 3

/-- The aggregate record stored under key `"workspaces"` in the
compositor namespace. -/
structure WorkspaceConfig where
  workspace_mode : WorkspaceMode
  workspace_layout : WorkspaceLayout
  workspace_thumbnail_placement : WorkspaceThumbnailPlacement
deriving DecidableEq, Repr

/-- Modelled from the spec: the aggregate record's default comes from the
external crate's `Default` instance; the spec leaves its exact value
unspecified ("unspecified default from the aggregate record's default"),
so the concrete values here stand for that external default. -/
def WorkspaceConfig.default : WorkspaceConfig :=
  ⟨WorkspaceMode.Global, WorkspaceLayout.Vertical, WorkspaceThumbnailPlacement.Top⟩

/-- Errors of the external `cosmic_config` crate: the page only
distinguishes `NoConfigDirectory` from every other error. -/
inductive ConfigError
  | NoConfigDirectory
  | other (code : Nat)
deriving DecidableEq, Repr

/-- Localized-string handles used by the page (`fl!` lookups); the page
only ever compares and stores them, so an inductive tag is a faithful
model. -/
inductive Label
  | top
  | bottom
  | left
  | right
  | vertical
  | horizontal
deriving DecidableEq, Repr

/-- The two configuration namespaces the page writes to. -/
inductive ConfigNamespace
  | cosmicComp
  | cosmicWorkspaces
deriving DecidableEq, Repr

/-- A value written to a config store: the aggregate record or a boolean. -/
inductive ConfigValue
  | workspaces (c : WorkspaceConfig)
  | boolVal (b : Bool)
deriving DecidableEq, Repr

/-- One `set` call issued to a config store. -/
structure WriteCall where
  ns : ConfigNamespace
  key : String
  value : ConfigValue
deriving DecidableEq, Repr

/-- An `error!` log event emitted by the page. -/
inductive LogEvent
  | readError (key : String) (err : ConfigError)
  | writeError (key : String) (err : ConfigError)
deriving DecidableEq, Repr

/-- The segmented-button single-select model: entries in insertion order
(label and optional associated layout data), and the active position.
An entity is its position in the entry list. -/
structure SingleSelectModel where
  entries : List (Label × Option WorkspaceLayout)
  active : Nat
deriving DecidableEq, Repr

/-- `model.data::<WorkspaceLayout>(entity)`. -/
def SingleSelectModel.data (m : SingleSelectModel) (e : Nat) :
    Option WorkspaceLayout :=
  (m.entries.get? e).bind Prod.snd

/-- `model.activate_position(p)`. -/
def SingleSelectModel.activate_position (m : SingleSelectModel) (p : Nat) :
    SingleSelectModel :=
  { m with active := p }

/-- The page's in-memory state (the two `cosmic_config::Config` handles
are pure capabilities; their write behaviour is the `SetOracle`). -/
structure Page where
  comp_workspace_config : WorkspaceConfig
  show_workspace_name : Bool
  show_workspace_number : Bool
  show_trackpad_gesture : Bool
  workspace_thumbnail_placement_options : List Label
  workspace_layout_model : SingleSelectModel
  selected_workspace_thumbnail_placement : Nat
deriving DecidableEq, Repr

/-- The message enum of the page.  The segmented-button entity of
`SetWorkspaceLayout` is modelled as its position in the model. -/
inductive Message
  | SetWorkspaceMode (value : WorkspaceMode)
  | SetWorkspaceLayout (value : Nat)
  | SetWorkspaceThumbnailPlacement (value : Nat)
  | ShowTrackpadGestureInfo (value : Bool)
  | SetShowName (value : Bool)
  | SetShowNumber (value : Bool)
deriving DecidableEq, Repr

/-- Behaviour of the external config stores' `set` calls: each call either
succeeds or fails with some error. -/
def SetOracle : Type :=
  ConfigNamespace → String → ConfigValue → Except ConfigError Unit

/-- An oracle on which every write succeeds. -/
def okOracle : SetOracle := fun _ _ _ => Except.ok ()

/-- An oracle on which every write fails with error `err`. -/
def failOracle (err : ConfigError) : SetOracle := fun _ _ _ => Except.error err

/-- The placement-option label list computed from the layout; this match
appears verbatim twice in the source (`Page::default` and the
`SetWorkspaceLayout` arm of `Page::update`). -/
def placementOptionsFor : WorkspaceLayout → List Label
  | .Horizontal => [Label.top, Label.bottom]
  | .Vertical => [Label.left, Label.right]

/-- The segmented-button position activated for a layout; this match
appears verbatim twice in the source. -/
def layoutPosition : WorkspaceLayout → Nat
  | .Vertical => 0
  | .Horizontal => 1

/-- The placement stored by the `SetWorkspaceThumbnailPlacement` arm of
`Page::update`, exactly as the source's match reads (note: under a
`Horizontal` layout the source stores `Left`/`Right`, under `Vertical` it
stores `Top`/`Bottom`). -/
def thumbnailPlacementFor (layout : WorkspaceLayout) (value : Nat) :
    WorkspaceThumbnailPlacement :=
  match layout with
  | .Horizontal =>
      if value == 0 then WorkspaceThumbnailPlacement.Left
      else WorkspaceThumbnailPlacement.Right
  | .Vertical =>
      if value == 0 then WorkspaceThumbnailPlacement.Top
      else WorkspaceThumbnailPlacement.Bottom

/-- `Page::save_comp_config`: one `set("workspaces", record)` call on the
compositor namespace; a failure is logged and otherwise ignored. -/
def Page.save_comp_config (p : Page) (o : SetOracle) :
    List WriteCall × List LogEvent :=
  ([⟨ConfigNamespace.cosmicComp, "workspaces",
      ConfigValue.workspaces p.comp_workspace_config⟩],
   match o ConfigNamespace.cosmicComp "workspaces"
       (ConfigValue.workspaces p.comp_workspace_config) with
   | .ok _ => []
   | .error err => [LogEvent.writeError "workspaces" err])

/-- `Page::update`: returns the new state, the write calls issued and the
log events emitted. -/
def Page.update (p : Page) (o : SetOracle) (message : Message) :
    Page × List WriteCall × List LogEvent :=
  match message with
  | .SetWorkspaceMode value =>
      let p :=
        { p with comp_workspace_config :=
            { p.comp_workspace_config with workspace_mode := value } }
      (p, p.save_comp_config o)
  | .SetWorkspaceLayout value =>
      let p :=
        { p with comp_workspace_config :=
            { p.comp_workspace_config with workspace_layout :=
                ((p.workspace_layout_model.data value).getD
                  WorkspaceLayout.Vertical) } }
      let p :=
        { p with workspace_layout_model :=
            (p.workspace_layout_model.activate_position
              (layoutPosition p.comp_workspace_config.workspace_layout)) }
      let p :=
        { p with workspace_thumbnail_placement_options :=
            (placementOptionsFor p.comp_workspace_config.workspace_layout) }
      (p, p.save_comp_config o)
  | .SetWorkspaceThumbnailPlacement value =>
      ({ p with
          comp_workspace_config :=
            { p.comp_workspace_config with workspace_thumbnail_placement :=
                (thumbnailPlacementFor
                  p.comp_workspace_config.workspace_layout value) },
          selected_workspace_thumbnail_placement := value },
       [], [])
  | .SetShowName value =>
      ({ p with show_workspace_name := value },
       [⟨ConfigNamespace.cosmicWorkspaces, "show_workspace_name",
          ConfigValue.boolVal value⟩],
       match o ConfigNamespace.cosmicWorkspaces "show_workspace_name"
           (ConfigValue.boolVal value) with
       | .ok _ => []
       | .error err => [LogEvent.writeError "show_workspace_name" err])
  | .SetShowNumber value =>
      ({ p with show_workspace_number := value },
       [⟨ConfigNamespace.cosmicWorkspaces, "show_workspace_number",
          ConfigValue.boolVal value⟩],
       match o ConfigNamespace.cosmicWorkspaces "show_workspace_number"
           (ConfigValue.boolVal value) with
       | .ok _ => []
       | .error err => [LogEvent.writeError "show_workspace_number" err])
  | .ShowTrackpadGestureInfo value =>
      ({ p with show_trackpad_gesture := value }, [], [])

/-- The `unwrap_or_else` closure of the three config reads in
`Page::default`: on success the read value, on failure the default, with
an error logged unless the error is `NoConfigDirectory`. -/
def loadOrDefault {α : Type} (key : String) (d : α)
    (r : Except ConfigError α) : α × List LogEvent :=
  match r with
  | .ok v => (v, [])
  | .error err =>
      (d, if err = ConfigError.NoConfigDirectory then []
          else [LogEvent.readError key err])

/-- `Page::default`, parametrised by the results of the three config
reads (aggregate record, `show_workspace_name`, `show_workspace_number`);
returns the constructed page and the read-error log events. -/
def Page.defaultPage (rw : Except ConfigError WorkspaceConfig)
    (rn : Except ConfigError Bool) (rnum : Except ConfigError Bool) :
    Page × List LogEvent :=
  let w := loadOrDefault "workspaces" WorkspaceConfig.default rw
  let n := loadOrDefault "show_workspace_name" false rn
  let num := loadOrDefault "show_workspace_number" false rnum
  let model : SingleSelectModel :=
    { entries := [(Label.vertical, some WorkspaceLayout.Vertical),
                  (Label.horizontal, some WorkspaceLayout.Horizontal)],
      active := 0 }
  ({ comp_workspace_config := w.1,
     show_workspace_name := n.1,
     show_workspace_number := num.1,
     show_trackpad_gesture := false,
     workspace_thumbnail_placement_options :=
       placementOptionsFor w.1.workspace_layout,
     workspace_layout_model :=
       model.activate_position (layoutPosition w.1.workspace_layout),
     selected_workspace_thumbnail_placement :=
       w.1.workspace_thumbnail_placement.toNat % 2 },
   w.2 ++ n.2 ++ num.2)

/-- Modelled from the spec: the layout→placement table
(Horizontal+index0→Top, Horizontal+index1→Bottom, Vertical+index0→Left,
Vertical+index1→Right). -/
def spec_placement (layout : WorkspaceLayout) (value : Nat) :
    WorkspaceThumbnailPlacement :=
  match layout with
  | .Horizontal =>
      if value == 0 then WorkspaceThumbnailPlacement.Top
      else WorkspaceThumbnailPlacement.Bottom
  | .Vertical =>
      if value == 0 then WorkspaceThumbnailPlacement.Left
      else WorkspaceThumbnailPlacement.Right

/-- Modelled from the spec: the two placement values valid for a layout
(Top/Bottom for Horizontal, Left/Right for Vertical). -/
def validPlacements : WorkspaceLayout → List WorkspaceThumbnailPlacement
  | .Horizontal => [WorkspaceThumbnailPlacement.Top,
                    WorkspaceThumbnailPlacement.Bottom]
  | .Vertical => [WorkspaceThumbnailPlacement.Left,
                  WorkspaceThumbnailPlacement.Right]

/-- A concrete page whose persisted aggregate record is `cfg` and whose
boolean reads returned `false`. -/
def pageWith (cfg : WorkspaceConfig) : Page :=
  (Page.defaultPage (Except.ok cfg) (Except.ok false) (Except.ok false)).1

/-- A concrete page with a Horizontal layout and a placement valid for it. -/
def pageH : Page :=
  pageWith ⟨WorkspaceMode.Global, WorkspaceLayout.Horizontal,
            WorkspaceThumbnailPlacement.Top⟩

/-- A concrete page with a Vertical layout and a placement valid for it. -/
def pageV : Page :=
  pageWith ⟨WorkspaceMode.Global, WorkspaceLayout.Vertical,
            WorkspaceThumbnailPlacement.Left⟩

/-- Claim C1: the claim states that `SetWorkspaceThumbnailPlacement` follows
the table Horizontal+index0→Top, Horizontal+index1→Bottom, Vertical+index0→Left,
Vertical+index1→Right, with the result always in the valid set of the layout.
The code does the opposite: on a page with a Horizontal layout, index 0 stores
`Left`, while the spec table (`spec_placement`) gives `Top`, and `Left` is not
in the valid set for Horizontal.  This also contradicts the code's own dropdown
labels, which for a Horizontal layout are top/bottom. -/
theorem C1_placement_mapping_code_eval :
    ((pageH.update okOracle
        (Message.SetWorkspaceThumbnailPlacement 0)).1.comp_workspace_config.workspace_thumbnail_placement
      = WorkspaceThumbnailPlacement.Left)
  ∧ spec_placement WorkspaceLayout.Horizontal 0 = WorkspaceThumbnailPlacement.Top
  ∧ WorkspaceThumbnailPlacement.Left ∉ validPlacements WorkspaceLayout.Horizontal
  ∧ pageH.workspace_thumbnail_placement_options = [Label.top, Label.bottom] := by
  refine ⟨rfl, rfl, by decide, rfl⟩

/-- Claim C2: the claim states that the invariant "placement lies in the valid
set of the current layout" holds in every reachable state.  The code violates
it in one step from a well-formed initial state: `pageV` is constructed from a
persisted record with layout Vertical and placement Left (which satisfies the
invariant), and one `SetWorkspaceThumbnailPlacement 0` message stores `Top`
while the layout stays Vertical, so the invariant fails. -/
theorem C2_invariant_violated_eval :
    (pageV.comp_workspace_config.workspace_thumbnail_placement
        ∈ validPlacements pageV.comp_workspace_config.workspace_layout)
  ∧ ((pageV.update okOracle
        (Message.SetWorkspaceThumbnailPlacement 0)).1.comp_workspace_config.workspace_layout
      = WorkspaceLayout.Vertical)
  ∧ ((pageV.update okOracle
        (Message.SetWorkspaceThumbnailPlacement 0)).1.comp_workspace_config.workspace_thumbnail_placement
      ∉ validPlacements
          (pageV.update okOracle
            (Message.SetWorkspaceThumbnailPlacement 0)).1.comp_workspace_config.workspace_layout) := by
  refine ⟨by decide, rfl, by decide⟩

/-- Claim C3: for every index, `SetWorkspaceThumbnailPlacement` only mutates
the cached placement and the selection index, and issues zero write calls (and
no log events): both persisted namespaces are untouched by this message. -/
theorem C3_thumbnail_placement_no_write (o : SetOracle) (p : Page) (i : Nat) :
    p.update o (Message.SetWorkspaceThumbnailPlacement i)
      = ({ p with
            comp_workspace_config :=
              { p.comp_workspace_config with workspace_thumbnail_placement :=
                  (thumbnailPlacementFor
                    p.comp_workspace_config.workspace_layout i) },
            selected_workspace_thumbnail_placement := i },
         [], []) := rfl

/-- Claim C4: each of `SetWorkspaceMode`, `SetWorkspaceLayout`, `SetShowName`
and `SetShowNumber` issues exactly one write call, to the correct namespace
and key, carrying the new value: the first two write the updated aggregate
record under `"workspaces"` in the compositor namespace, the last two write
the new boolean under `"show_workspace_name"` / `"show_workspace_number"` in
the settings-app namespace. -/
theorem C4_persisting_messages_one_write (o : SetOracle) (p : Page)
    (m : WorkspaceMode) (e : Nat) (b b' : Bool) :
    ((p.update o (Message.SetWorkspaceMode m)).2.1
        = [⟨ConfigNamespace.cosmicComp, "workspaces",
            ConfigValue.workspaces
              ((p.update o (Message.SetWorkspaceMode m)).1.comp_workspace_config)⟩])
  ∧ ((p.update o (Message.SetWorkspaceMode m)).1.comp_workspace_config.workspace_mode = m)
  ∧ ((p.update o (Message.SetWorkspaceLayout e)).2.1
        = [⟨ConfigNamespace.cosmicComp, "workspaces",
            ConfigValue.workspaces
              ((p.update o (Message.SetWorkspaceLayout e)).1.comp_workspace_config)⟩])
  ∧ ((p.update o (Message.SetWorkspaceLayout e)).1.comp_workspace_config.workspace_layout
        = (p.workspace_layout_model.data e).getD WorkspaceLayout.Vertical)
  ∧ ((p.update o (Message.SetShowName b)).2.1
        = [⟨ConfigNamespace.cosmicWorkspaces, "show_workspace_name",
            ConfigValue.boolVal b⟩])
  ∧ ((p.update o (Message.SetShowName b)).1.show_workspace_name = b)
  ∧ ((p.update o (Message.SetShowNumber b')).2.1
        = [⟨ConfigNamespace.cosmicWorkspaces, "show_workspace_number",
            ConfigValue.boolVal b'⟩])
  ∧ ((p.update o (Message.SetShowNumber b')).1.show_workspace_number = b') := by
  refine ⟨rfl, rfl, rfl, rfl, rfl, rfl, rfl, rfl⟩

/-- Claim C5: for every outcome of the three construction-time reads, the
initial selection index equals the placement's integer ordinal modulo 2; and
nothing constrains the code's placement mapping at that index to give back the
placement (witnessed by layout Horizontal with persisted placement Top, where
ordinal parity does not align with the label ordering for that layout). -/
theorem C5_initial_selection_index (rw : Except ConfigError WorkspaceConfig)
    (rn rnum : Except ConfigError Bool) :
    ((Page.defaultPage rw rn rnum).1.selected_workspace_thumbnail_placement
        = (Page.defaultPage rw rn
            rnum).1.comp_workspace_config.workspace_thumbnail_placement.toNat % 2)
  ∧ ∃ L P, thumbnailPlacementFor L (P.toNat % 2) ≠ P := by
  exact ⟨rfl, WorkspaceLayout.Horizontal, WorkspaceThumbnailPlacement.Top, by decide⟩

/-- Claim C6: `SetWorkspaceLayout e` sets the cached layout to the layout
associated with entity `e` in the selection model (default Vertical when no
data is associated), re-activates the model position matching the resulting
layout (0 for Vertical, 1 for Horizontal), and replaces the placement-option
label list with exactly the two labels valid for the new layout. -/
theorem C6_set_workspace_layout (o : SetOracle) (p : Page) (e : Nat) :
    ((p.update o (Message.SetWorkspaceLayout e)).1.comp_workspace_config.workspace_layout
        = (p.workspace_layout_model.data e).getD WorkspaceLayout.Vertical)
  ∧ ((p.update o (Message.SetWorkspaceLayout e)).1.comp_workspace_config.workspace_layout
        = WorkspaceLayout.Vertical →
      (p.update o (Message.SetWorkspaceLayout e)).1.workspace_layout_model.active = 0
      ∧ (p.update o (Message.SetWorkspaceLayout e)).1.workspace_thumbnail_placement_options
          = [Label.left, Label.right])
  ∧ ((p.update o (Message.SetWorkspaceLayout e)).1.comp_workspace_config.workspace_layout
        = WorkspaceLayout.Horizontal →
      (p.update o (Message.SetWorkspaceLayout e)).1.workspace_layout_model.active = 1
      ∧ (p.update o (Message.SetWorkspaceLayout e)).1.workspace_thumbnail_placement_options
          = [Label.top, Label.bottom]) := by
  have key :
      ∀ L, (p.workspace_layout_model.data e).getD WorkspaceLayout.Vertical = L →
        (p.update o (Message.SetWorkspaceLayout e)).1.workspace_layout_model.active
            = layoutPosition L
        ∧ (p.update o
            (Message.SetWorkspaceLayout e)).1.workspace_thumbnail_placement_options
            = placementOptionsFor L := by
    intro L hL
    constructor
    · show layoutPosition ((p.workspace_layout_model.data e).getD
        WorkspaceLayout.Vertical) = layoutPosition L
      rw [hL]
    · show placementOptionsFor ((p.workspace_layout_model.data e).getD
        WorkspaceLayout.Vertical) = placementOptionsFor L
      rw [hL]
  exact ⟨rfl, fun h => key WorkspaceLayout.Vertical h,
         fun h => key WorkspaceLayout.Horizontal h⟩

/-- Claim C6 witness: on the concrete page `pageV`, activating entity 1 (whose
associated data is the Horizontal layout) moves the model's active position to
1 and replaces the option labels with top/bottom. -/
theorem C6_set_workspace_layout_witness :
    (pageV.update okOracle
        (Message.SetWorkspaceLayout 1)).1.workspace_layout_model.active = 1
  ∧ (pageV.update okOracle
        (Message.SetWorkspaceLayout 1)).1.workspace_thumbnail_placement_options
      = [Label.top, Label.bottom] :=
  (C6_set_workspace_layout okOracle pageV 1).2.2 (by decide)

/-- Claim C7 counterexample: the claim quantifies over every boolean `b`, but
the pair ShowTrackpadGestureInfo(b) then ShowTrackpadGestureInfo(not b) only
restores the original state when `b` differs from the current flag.  On the
concrete page `pageV` (whose flag is `false`) with `b = false`, the final flag
is `true`, so the final state differs from the original. -/
theorem C7_double_toggle_counterexample :
    ((pageV.update okOracle
        (Message.ShowTrackpadGestureInfo false)).1.update okOracle
        (Message.ShowTrackpadGestureInfo (!false))).1 ≠ pageV := by
  decide

/-- Claim C7 (amended): for every boolean `b`, ShowTrackpadGestureInfo(b)
changes only the `show_trackpad_gesture` field and issues no write call and no
log event; and when `b` is the negation of the current flag (the only value
the view ever dispatches), ShowTrackpadGestureInfo(b) followed by
ShowTrackpadGestureInfo(not b) returns the page state to exact equality with
the original. -/
theorem C7_trackpad_gesture_toggle (o o' : SetOracle) (p : Page) (b : Bool) :
    (p.update o (Message.ShowTrackpadGestureInfo b)
        = ({ p with show_trackpad_gesture := b }, [], []))
  ∧ (b = !p.show_trackpad_gesture →
      ((p.update o (Message.ShowTrackpadGestureInfo b)).1.update o'
          (Message.ShowTrackpadGestureInfo (!b))).1 = p) := by
  refine ⟨rfl, ?_⟩
  intro h
  subst h
  show { p with show_trackpad_gesture := !!p.show_trackpad_gesture } = p
  rw [Bool.not_not]

/-- Claim C7 witness: the amended round trip on the concrete page `pageV`. -/
theorem C7_trackpad_gesture_toggle_witness :
    ((pageV.update okOracle
        (Message.ShowTrackpadGestureInfo true)).1.update okOracle
        (Message.ShowTrackpadGestureInfo (!true))).1 = pageV :=
  (C7_trackpad_gesture_toggle okOracle okOracle pageV true).2 (by decide)

/-- Claim C8: when the three construction-time reads fail with errors `ew`,
`en`, `enum`, the constructed page silently uses the aggregate record's
default and `false` for the two booleans, and the emitted log events are
exactly one read-error per read whose error is not `NoConfigDirectory`: a
`NoConfigDirectory` failure is silent, any other failure is logged, and no
error is propagated (construction always returns a page). -/
theorem C8_construction_read_errors (ew en enum : ConfigError) :
    ((Page.defaultPage (Except.error ew) (Except.error en)
        (Except.error enum)).1.comp_workspace_config = WorkspaceConfig.default)
  ∧ ((Page.defaultPage (Except.error ew) (Except.error en)
        (Except.error enum)).1.show_workspace_name = false)
  ∧ ((Page.defaultPage (Except.error ew) (Except.error en)
        (Except.error enum)).1.show_workspace_number = false)
  ∧ ((Page.defaultPage (Except.error ew) (Except.error en)
        (Except.error enum)).2
      = (if ew = ConfigError.NoConfigDirectory then []
          else [LogEvent.readError "workspaces" ew])
        ++ (if en = ConfigError.NoConfigDirectory then []
            else [LogEvent.readError "show_workspace_name" en])
        ++ (if enum = ConfigError.NoConfigDirectory then []
            else [LogEvent.readError "show_workspace_number" enum])) := by
  refine ⟨rfl, rfl, rfl, rfl⟩

/-- Claim C9: the resulting page state of any message is the same whatever
the write outcomes are; and for each persisting message, when the write fails
with `err` the failure is logged as a write-error on the written key and the
in-memory field keeps its new value (no rollback, no retry). -/
theorem C9_write_failure_logged_state_kept (o o' : SetOracle) (p : Page)
    (err : ConfigError) (m : WorkspaceMode) (e : Nat) (b b' : Bool)
    (msg : Message) :
    ((p.update o msg).1 = (p.update o' msg).1)
  ∧ ((p.update (failOracle err) (Message.SetWorkspaceMode m)).2.2
        = [LogEvent.writeError "workspaces" err])
  ∧ ((p.update (failOracle err)
        (Message.SetWorkspaceMode m)).1.comp_workspace_config.workspace_mode = m)
  ∧ ((p.update (failOracle err) (Message.SetWorkspaceLayout e)).2.2
        = [LogEvent.writeError "workspaces" err])
  ∧ ((p.update (failOracle err) (Message.SetShowName b)).2.2
        = [LogEvent.writeError "show_workspace_name" err])
  ∧ ((p.update (failOracle err) (Message.SetShowName b)).1.show_workspace_name = b)
  ∧ ((p.update (failOracle err) (Message.SetShowNumber b')).2.2
        = [LogEvent.writeError "show_workspace_number" err])
  ∧ ((p.update (failOracle err)
        (Message.SetShowNumber b')).1.show_workspace_number = b') := by
  refine ⟨?_, rfl, rfl, rfl, rfl, rfl, rfl, rfl⟩
  cases msg <;> rfl

/-- Claim C10: `SetWorkspaceThumbnailPlacement` is total over all index
values: the raw index is stored unvalidated as the selection index, every
non-zero index selects the same placement as index 1 would, and an
out-of-range index (such as 2) leaves the stored selection index outside
`{0, 1}`. -/
theorem C10_thumbnail_placement_total (o : SetOracle) (p : Page) (n : Nat) :
    ((p.update o
        (Message.SetWorkspaceThumbnailPlacement n)).1.selected_workspace_thumbnail_placement
      = n)
  ∧ (n ≠ 0 →
      (p.update o
          (Message.SetWorkspaceThumbnailPlacement n)).1.comp_workspace_config.workspace_thumbnail_placement
        = (p.update o
            (Message.SetWorkspaceThumbnailPlacement 1)).1.comp_workspace_config.workspace_thumbnail_placement)
  ∧ ((p.update o
        (Message.SetWorkspaceThumbnailPlacement 2)).1.selected_workspace_thumbnail_placement ≠ 0
      ∧ (p.update o
          (Message.SetWorkspaceThumbnailPlacement 2)).1.selected_workspace_thumbnail_placement ≠ 1) := by
  refine ⟨rfl, ?_, by show (2 : Nat) ≠ 0; decide, by show (2 : Nat) ≠ 1; decide⟩
  intro h
  show thumbnailPlacementFor p.comp_workspace_config.workspace_layout n
      = thumbnailPlacementFor p.comp_workspace_config.workspace_layout 1
  cases p.comp_workspace_config.workspace_layout <;>
    simp [thumbnailPlacementFor, h]

/-- Claim C10 witness: on the concrete page `pageH`, index 5 selects the same
placement as index 1. -/
theorem C10_thumbnail_placement_total_witness :
    (5 : Nat) ≠ 0
  ∧ (pageH.update okOracle
        (Message.SetWorkspaceThumbnailPlacement 5)).1.comp_workspace_config.workspace_thumbnail_placement
      = (pageH.update okOracle
          (Message.SetWorkspaceThumbnailPlacement 1)).1.comp_workspace_config.workspace_thumbnail_placement :=
  ⟨by decide, (C10_thumbnail_placement_total okOracle pageH 5).2.1 (by decide)⟩

end Workspaces
